import Mathlib

/-!
Verification of the Tube-Calculation repository.

The Parameter Engine (`compute_bend_parameters` in `app.py`), the material
table `MATERIALS`, the report formatter `generate_pdf_report`, and the
duplicate simplified calculation in `bending_calc.py` are embedded shallowly:
Python floats are modelled as real numbers (exact arithmetic), the
KeyError-raising dict lookup as an `Option`, Python's `float("inf")` as the
top element of `EReal`, and the decimal string formatting `f"{x:.2f}"` as an
exact-rational round-half-to-even formatter.
-/

/- Batteries marks the rational-number operations irreducible, which blocks
kernel evaluation of the decimal formatter on concrete rationals; restore the
default reducibility so that `decide`/`rfl` can evaluate them. -/
set_option allowUnsafeReducibility true in
attribute [semireducible] Rat.mul Rat.inv Rat.add Rat.sub Rat.ofScientific

namespace TubeCalc

/-- Material properties record: one row of the `MATERIALS` dict in `app.py`
(`{"E": ..., "yield": ...}`, both in MPa). -/
structure MaterialProps where
  E : ℝ
  yield : ℝ

/-- The `MATERIALS` dict of `app.py` (lines 27-31).  A Python dict indexing
`MATERIALS[name]` raises `KeyError` on a missing key; this is embedded as an
`Option`-valued lookup returning `none` outside the fixed key set. -/
noncomputable def MATERIALS (name : String) : Option MaterialProps :=
  if name = "Copper" then some ⟨110000, 200⟩
  else if name = "Carbon Steel" then some ⟨210000, 250⟩
  else if name = "Aluminium" then some ⟨70000, 120⟩
  else none

/-- Result record returned by `compute_bend_parameters` (the dict built at
`app.py` lines 54-62).  `fos` lives in `EReal` because the source assigns
`float("inf")` when the stress is not positive. -/
@[ext]
structure BendResults where
  wf : ℝ
  clr : ℝ
  mbr : ℝ
  arc_len : ℝ
  total_len : ℝ
  stress : ℝ
  fos : EReal

/-- Python's `math.radians`: degrees to radians. -/
noncomputable def radians (x : ℝ) : ℝ := x * (Real.pi / 180)

/-- Body of `compute_bend_parameters` (`app.py` lines 34-62) after the
material row has been resolved; mirrors the source line by line. -/
noncomputable def computeBody (od_mm wall_mm angle_deg straight_mm d_of_bend : ℝ)
    (props : MaterialProps) : BendResults :=
  let E := props.E
  let sigma_y := props.yield
  let wall_eff := max wall_mm 1e-6
  let clr := d_of_bend * od_mm
  let wf := od_mm / wall_eff
  let mbr := wf * od_mm
  let theta_rad := radians angle_deg
  let arc_len := clr * theta_rad
  let total_len := straight_mm + arc_len
  let stress := E * ((wall_mm / 2) / max clr 1e-6) / 1000
  let fos : EReal := if stress > 0 then (((sigma_y / stress : ℝ)) : EReal) else ⊤
  { wf := wf, clr := clr, mbr := mbr, arc_len := arc_len,
    total_len := total_len, stress := stress, fos := fos }

/-- `compute_bend_parameters` of `app.py`: resolves the material name in
`MATERIALS` (a `KeyError` becomes `none`) and computes the derived values. -/
noncomputable def compute_bend_parameters (od_mm wall_mm angle_deg straight_mm d_of_bend : ℝ)
    (material_name : String) : Option BendResults :=
  (MATERIALS material_name).map (computeBody od_mm wall_mm angle_deg straight_mm d_of_bend)

/-- `calculate_bend_radius` of `bending_calc.py` (lines 4-6): note the body
ignores `bend_angle` entirely. -/
noncomputable def calculate_bend_radius (tube_diameter bend_angle material_factor : ℝ) : ℝ :=
  tube_diameter * material_factor

/-- `calculate_tube_length` of `bending_calc.py` (lines 8-11). -/
noncomputable def calculate_tube_length (straight_length bend_angle bend_radius : ℝ) : ℝ :=
  let arc_length := radians bend_angle * bend_radius
  straight_length + arc_length

/- Report formatter (`generate_pdf_report`, `app.py` lines 65-113).  The
document is modelled at the level of the text handed to the PDF library: the
sequence of `pdf.cell` / `pdf.multi_cell` payloads, in source order.  The
numeric values arriving at the formatter are modelled as exact rationals and
Python's `f"{x:.2f}"` as exact round-half-to-even decimal formatting;
`float("inf")`, which `f"{...:.2f}"` renders as `"inf"`, is modelled as
`none`. -/

/-- Input dict `inputs_dict` handed to `generate_pdf_report` (`app.py`
lines 280-287). -/
structure InputsQ where
  material : String
  od : ℚ
  wall : ℚ
  angle : ℚ
  straight : ℚ
  d_of_bend : ℚ

/-- Results dict as consumed by `generate_pdf_report`; same fields as
`BendResults`, with rational values and `none` standing for `float("inf")`. -/
structure ResultsQ where
  wf : ℚ
  clr : ℚ
  mbr : ℚ
  arc_len : ℚ
  total_len : ℚ
  stress : ℚ
  fos : Option ℚ

/-- Round `q * 100` to the nearest integer, ties to even: the rounding of
`f"{q:.2f}"` (C `%.2f`) on the exact value. -/
def round2 (q : ℚ) : ℤ :=
  let n := q.num * 100
  let d := (q.den : ℤ)
  let f := n.fdiv d
  let r := n - f * d
  if 2 * r < d then f
  else if d < 2 * r then f + 1
  else if f % 2 = 0 then f else f + 1

/-- Python's `f"{q:.2f}"` on an exact rational value. -/
def fmt2 (q : ℚ) : String :=
  let n := round2 q
  let sgn := if n < 0 then "-" else ""
  let m := n.natAbs
  let ip := m / 100
  let fp := m % 100
  sgn ++ toString ip ++ "." ++ (if fp < 10 then "0" ++ toString fp else toString fp)

/-- `f"{fos:.2f}"` where `fos` may be `float("inf")` (rendered `"inf"`). -/
def fmtFos : Option ℚ → String
  | some q => fmt2 q
  | none => "inf"

/-- The static `pdf.multi_cell` payload of `generate_pdf_report` (`app.py`
lines 99-110): formula reference and disclaimer. -/
def keyFormulasText : String :=
  "Wall Factor (WF) = O.D. / Wall\n" ++
  "\"D\" of Bend      = CLR / O.D.\n" ++
  "CLR              = D × O.D.\n" ++
  "Bend Arc Length  = CLR × θ(rad)\n" ++
  "Total Length     = Straight Length + Bend Arc Length\n" ++
  "Outer-fibre strain ≈ (t/2) / CLR → Stress ≈ E × strain\n\n" ++
  "NOTE: Stress and FoS here are simplified estimates for study / comparison, " ++
  "not for final certification."

/-- The text payloads of `generate_pdf_report`'s `pdf.cell` / `pdf.multi_cell`
calls, in source order (`app.py` lines 72-110). -/
def docLines (i : InputsQ) (r : ResultsQ) : List String :=
  [ "Tube Bending Report",
    "Material          : " ++ i.material,
    "Tube O.D.         : " ++ fmt2 i.od ++ " mm",
    "Wall Thickness    : " ++ fmt2 i.wall ++ " mm",
    "Bend Angle        : " ++ fmt2 i.angle ++ " °",
    "Straight Length   : " ++ fmt2 i.straight ++ " mm",
    "\"D\" of Bend (CLR/OD): " ++ fmt2 i.d_of_bend,
    "Calculated Values",
    "Wall Factor (WF = OD / t)         : " ++ fmt2 r.wf,
    "Center-Line Radius (CLR)          : " ++ fmt2 r.clr ++ " mm",
    "Minimum Bend Radius (WF × OD)     : " ++ fmt2 r.mbr ++ " mm",
    "Bend Arc Length                   : " ++ fmt2 r.arc_len ++ " mm",
    "Approx. Total Tube Length         : " ++ fmt2 r.total_len ++ " mm",
    "Simplified Outer-Fibre Stress     : " ++ fmt2 r.stress ++ " MPa",
    "Factor of Safety vs Yield (FoS)   : " ++ fmtFos r.fos,
    "Key Formulas (from Bend Manual concepts)",
    keyFormulasText ]

/-- The document text represented as a single string. -/
def docString (i : InputsQ) (r : ResultsQ) : String :=
  String.intercalate "\n" (docLines i r)

/-- `.encode("latin-1", "replace")` (`app.py` line 112): every character whose
code point fits in Latin-1 is kept, every other character becomes the
replacement glyph `'?'` (code 63); encoding never fails. -/
def encodeLatin1Replace (s : String) : List ℕ :=
  s.data.map (fun c => if c.toNat ≤ 255 then c.toNat else 63)

/-- `generate_pdf_report` (`app.py` lines 65-113): document text of the
report, encoded to bytes with the Latin-1 replacement policy. -/
def generate_pdf_report (i : InputsQ) (r : ResultsQ) : List ℕ :=
  encodeLatin1Replace (docString i r)

/- Spec-side description of the document layout (§4.3 of the spec), to be
compared with the source-side `docLines`: a title, an echo of every input
field, a labeled block of every result field, and a static formula-reference
block with the disclaimer. -/

/-- Title block, per the spec's §4.3 contract. -/
def specTitleBlock : List String := ["Tube Bending Report"]

/-- Echo of every input field (material name, OD, wall, angle, straight
length, bend multiplier), numeric fields to 2 decimal places, per §4.3. -/
def specInputEcho (i : InputsQ) : List String :=
  [ "Material          : " ++ i.material,
    "Tube O.D.         : " ++ fmt2 i.od ++ " mm",
    "Wall Thickness    : " ++ fmt2 i.wall ++ " mm",
    "Bend Angle        : " ++ fmt2 i.angle ++ " °",
    "Straight Length   : " ++ fmt2 i.straight ++ " mm",
    "\"D\" of Bend (CLR/OD): " ++ fmt2 i.d_of_bend ]

/-- Labeled block of every result field (wall factor, CLR, minimum bend
radius, arc length, total length, stress, factor of safety), to 2 decimal
places, per §4.3. -/
def specResultsBlock (r : ResultsQ) : List String :=
  [ "Calculated Values",
    "Wall Factor (WF = OD / t)         : " ++ fmt2 r.wf,
    "Center-Line Radius (CLR)          : " ++ fmt2 r.clr ++ " mm",
    "Minimum Bend Radius (WF × OD)     : " ++ fmt2 r.mbr ++ " mm",
    "Bend Arc Length                   : " ++ fmt2 r.arc_len ++ " mm",
    "Approx. Total Tube Length         : " ++ fmt2 r.total_len ++ " mm",
    "Simplified Outer-Fibre Stress     : " ++ fmt2 r.stress ++ " MPa",
    "Factor of Safety vs Yield (FoS)   : " ++ fmtFos r.fos ]

/-- Static formula-reference block with the disclaimer, per §4.3. -/
def specFormulaBlock : List String :=
  [ "Key Formulas (from Bend Manual concepts)", keyFormulasText ]

/-- Inputs of the end-to-end example (spec §8): OD=10, wall=1, angle=90,
straight=500, D=3.0, Carbon Steel. -/
def exampleInputsQ : InputsQ := ⟨"Carbon Steel", 10, 1, 90, 500, 3⟩

/-- Results of the end-to-end example as rendered by the formatter: the exact
engine outputs for `wf`, `clr`, `mbr`, `stress`, `fos`, and the displayed
2-decimal values for the two π-dependent lengths. -/
def exampleResultsQ : ResultsQ := ⟨10, 30, 100, 4712/100, 54712/100, 7/2, some (500/7)⟩

/- Field-access lemmas for `computeBody`; each is definitional. -/

lemma computeBody_wf (od wall angle straight d : ℝ) (props : MaterialProps) :
    (computeBody od wall angle straight d props).wf = od / max wall 1e-6 := rfl

lemma computeBody_clr (od wall angle straight d : ℝ) (props : MaterialProps) :
    (computeBody od wall angle straight d props).clr = d * od := rfl

lemma computeBody_mbr (od wall angle straight d : ℝ) (props : MaterialProps) :
    (computeBody od wall angle straight d props).mbr = (od / max wall 1e-6) * od := rfl

lemma computeBody_arc_len (od wall angle straight d : ℝ) (props : MaterialProps) :
    (computeBody od wall angle straight d props).arc_len = (d * od) * radians angle := rfl

lemma computeBody_total_len (od wall angle straight d : ℝ) (props : MaterialProps) :
    (computeBody od wall angle straight d props).total_len =
      straight + (d * od) * radians angle := rfl

lemma computeBody_stress (od wall angle straight d : ℝ) (props : MaterialProps) :
    (computeBody od wall angle straight d props).stress =
      props.E * ((wall / 2) / max (d * od) 1e-6) / 1000 := rfl

lemma computeBody_fos (od wall angle straight d : ℝ) (props : MaterialProps) :
    (computeBody od wall angle straight d props).fos =
      if props.E * ((wall / 2) / max (d * od) 1e-6) / 1000 > 0 then
        (((props.yield / (props.E * ((wall / 2) / max (d * od) 1e-6) / 1000) : ℝ)) : EReal)
      else ⊤ := rfl

/-- Evaluation of the engine on the end-to-end example of the spec:
OD=10, wall=1, angle=90, straight=500, D=3.0, Carbon Steel. -/
lemma computeBody_example :
    computeBody 10 1 90 500 3 ⟨210000, 250⟩ =
      { wf := 10, clr := 30, mbr := 100, arc_len := 15 * Real.pi,
        total_len := 500 + 15 * Real.pi, stress := 3.5,
        fos := (((500 / 7 : ℝ)) : EReal) } := by
  have hmaxw : max (1 : ℝ) 1e-6 = 1 := max_eq_left (by norm_num)
  have hmaxc : max ((3 : ℝ) * 10) 1e-6 = 30 := by
    rw [max_eq_left (by norm_num)]; norm_num
  have hstress : (210000 : ℝ) * ((1 / 2) / max ((3 : ℝ) * 10) 1e-6) / 1000 = 3.5 := by
    rw [hmaxc]; norm_num
  ext
  · rw [computeBody_wf, hmaxw]; norm_num
  · rw [computeBody_clr]; norm_num
  · rw [computeBody_mbr, hmaxw]; norm_num
  · rw [computeBody_arc_len, radians]; ring
  · rw [computeBody_total_len, radians]; ring
  · rw [computeBody_stress]; exact hstress
  · rw [computeBody_fos]
    rw [if_pos (by rw [hstress]; norm_num)]
    rw [hstress]
    norm_num

/-- C1: for the inputs OD=10mm, wall=1mm, angle=90°, straight=500mm, D=3.0,
material=Carbon Steel (E=210000 MPa, yield=250 MPa), the engine returns
wallFactor=10.00, centerLineRadius=30.00mm, minimumBendRadius=100.00mm,
bendArcLength=30·(π/2)≈47.12mm, totalLength≈547.12mm, outerFibreStress=3.50
MPa and factorOfSafety=250/3.5≈71.43, the π-dependent and rounded values
within half of the last displayed digit (±0.005). -/
theorem C1_end_to_end_example :
    ∃ r : BendResults,
      compute_bend_parameters 10 1 90 500 3 "Carbon Steel" = some r ∧
      r.wf = 10 ∧ r.clr = 30 ∧ r.mbr = 100 ∧
      r.arc_len = 30 * (Real.pi / 2) ∧ |r.arc_len - 47.12| < 0.005 ∧
      |r.total_len - 547.12| < 0.005 ∧
      r.stress = 3.5 ∧
      r.fos = (((250 / 3.5 : ℝ)) : EReal) ∧ |(250 / 3.5 : ℝ) - 71.43| < 0.005 := by
  refine ⟨computeBody 10 1 90 500 3 ⟨210000, 250⟩, ?_, ?_, ?_, ?_, ?_, ?_, ?_, ?_, ?_, ?_⟩
  · simp [compute_bend_parameters, MATERIALS]
  · rw [computeBody_example]
  · rw [computeBody_example]
  · rw [computeBody_example]
  · rw [computeBody_example]; show (15 : ℝ) * Real.pi = 30 * (Real.pi / 2); ring
  · rw [computeBody_example]
    show |(15 : ℝ) * Real.pi - 47.12| < 0.005
    rw [abs_sub_lt_iff]
    constructor <;> nlinarith [Real.pi_gt_d6, Real.pi_lt_d6]
  · rw [computeBody_example]
    show |(500 : ℝ) + 15 * Real.pi - 547.12| < 0.005
    rw [abs_sub_lt_iff]
    constructor <;> nlinarith [Real.pi_gt_d6, Real.pi_lt_d6]
  · rw [computeBody_example]
  · rw [computeBody_example]
    show (((500 / 7 : ℝ)) : EReal) = (((250 / 3.5 : ℝ)) : EReal)
    norm_num
  · rw [abs_sub_lt_iff]; norm_num

/-- C2: for every input with od > 0, wall > 0, angle ∈ (0,360], D > 0 and
straight ≥ 0, the geometric outputs satisfy clr = D·od exactly,
mbr = wf·od, arc = clr·(angle·π/180), and total = straight + arc. -/
theorem C2_geometry (od wall angle straight d : ℝ) (props : MaterialProps)
    (hod : 0 < od) (hwall : 0 < wall) (hang : 0 < angle) (hang' : angle ≤ 360)
    (hd : 0 < d) (hstraight : 0 ≤ straight) :
    (computeBody od wall angle straight d props).clr = d * od ∧
    (computeBody od wall angle straight d props).mbr =
      (computeBody od wall angle straight d props).wf * od ∧
    (computeBody od wall angle straight d props).arc_len =
      (computeBody od wall angle straight d props).clr * (angle * Real.pi / 180) ∧
    (computeBody od wall angle straight d props).total_len =
      straight + (computeBody od wall angle straight d props).arc_len := by
  refine ⟨rfl, rfl, ?_, rfl⟩
  rw [computeBody_arc_len, computeBody_clr, radians]
  ring

/-- Witness for C2 at the end-to-end example input. -/
theorem C2_geometry_witness :
    (computeBody 10 1 90 500 3 ⟨210000, 250⟩).clr = 3 * 10 ∧
    (computeBody 10 1 90 500 3 ⟨210000, 250⟩).mbr =
      (computeBody 10 1 90 500 3 ⟨210000, 250⟩).wf * 10 ∧
    (computeBody 10 1 90 500 3 ⟨210000, 250⟩).arc_len =
      (computeBody 10 1 90 500 3 ⟨210000, 250⟩).clr * (90 * Real.pi / 180) ∧
    (computeBody 10 1 90 500 3 ⟨210000, 250⟩).total_len =
      500 + (computeBody 10 1 90 500 3 ⟨210000, 250⟩).arc_len :=
  C2_geometry 10 1 90 500 3 ⟨210000, 250⟩ (by norm_num) (by norm_num) (by norm_num)
    (by norm_num) (by norm_num) (by norm_num)

/-- C3: for every input, stress = E·((wall/2)/max(clr, 1e-6))/1000, and the
factor of safety is yield/stress when stress > 0 and +∞ otherwise; in
particular stress = 0 gives +∞, not an error. -/
theorem C3_stress_fos (od wall angle straight d : ℝ) (props : MaterialProps) :
    (computeBody od wall angle straight d props).stress =
      props.E * ((wall / 2) /
        max (computeBody od wall angle straight d props).clr 1e-6) / 1000 ∧
    (0 < (computeBody od wall angle straight d props).stress →
      (computeBody od wall angle straight d props).fos =
        (((props.yield / (computeBody od wall angle straight d props).stress : ℝ)) : EReal)) ∧
    (¬ 0 < (computeBody od wall angle straight d props).stress →
      (computeBody od wall angle straight d props).fos = ⊤) ∧
    ((computeBody od wall angle straight d props).stress = 0 →
      (computeBody od wall angle straight d props).fos = ⊤) := by
  refine ⟨rfl, ?_, ?_, ?_⟩
  · intro h
    rw [computeBody_stress] at h
    rw [computeBody_fos, if_pos h, computeBody_stress]
  · intro h
    rw [computeBody_stress] at h
    rw [computeBody_fos, if_neg h]
  · intro h
    rw [computeBody_stress] at h
    rw [computeBody_fos, if_neg (by rw [h]; exact lt_irrefl 0)]

/-- Witness for C3: at the example input the stress is 3.5 > 0 and the factor
of safety is yield/stress; at wall = 0 the stress is 0 and the factor of
safety is +∞. -/
theorem C3_stress_fos_witness :
    (computeBody 10 1 90 500 3 ⟨210000, 250⟩).fos =
      ((((⟨210000, 250⟩ : MaterialProps).yield /
        (computeBody 10 1 90 500 3 ⟨210000, 250⟩).stress : ℝ)) : EReal) ∧
    (computeBody 10 0 90 500 3 ⟨210000, 250⟩).fos = ⊤ := by
  constructor
  · exact (C3_stress_fos 10 1 90 500 3 ⟨210000, 250⟩).2.1
      (by rw [computeBody_stress]; positivity)
  · exact (C3_stress_fos 10 0 90 500 3 ⟨210000, 250⟩).2.2.2
      (by rw [computeBody_stress]; norm_num)

/-- C4: for every input with od > 0, the wall factor is
od / max(wall, 1e-6); in particular wall = 0 yields the finite value
od·10⁶ instead of a division error. -/
theorem C4_wall_clamp (od wall angle straight d : ℝ) (props : MaterialProps)
    (hod : 0 < od) :
    (computeBody od wall angle straight d props).wf = od / max wall 1e-6 ∧
    (wall = 0 → (computeBody od wall angle straight d props).wf = od * 1000000) := by
  refine ⟨rfl, ?_⟩
  intro h
  rw [computeBody_wf, h, max_eq_right (by norm_num), div_eq_iff (by norm_num)]
  ring_nf

/-- Witness for C4 at od = 10, wall = 0. -/
theorem C4_wall_clamp_witness :
    (computeBody 10 0 90 500 3 ⟨210000, 250⟩).wf = 10 * 1000000 :=
  (C4_wall_clamp 10 0 90 500 3 ⟨210000, 250⟩ (by norm_num)).2 rfl

/-- C5: the material table returns exactly the specified positive constants
for Copper, Carbon Steel and Aluminium, and returns nothing (the KeyError
branch) for every other name. -/
theorem C5_material_lookup :
    MATERIALS "Copper" = some ⟨110000, 200⟩ ∧
    MATERIALS "Carbon Steel" = some ⟨210000, 250⟩ ∧
    MATERIALS "Aluminium" = some ⟨70000, 120⟩ ∧
    (∀ (name : String) (p : MaterialProps), MATERIALS name = some p →
      0 < p.E ∧ 0 < p.yield) ∧
    (∀ name : String, name ≠ "Copper" → name ≠ "Carbon Steel" →
      name ≠ "Aluminium" → MATERIALS name = none) := by
  refine ⟨by simp [MATERIALS], by simp [MATERIALS], by simp [MATERIALS], ?_, ?_⟩
  · intro name p h
    unfold MATERIALS at h
    split_ifs at h <;> cases h <;> constructor <;> norm_num
  · intro name h1 h2 h3
    simp [MATERIALS, h1, h2, h3]

/-- Witness for C5: the unknown name "Unobtainium" is rejected, and the
Copper row is positive. -/
theorem C5_material_lookup_witness :
    MATERIALS "Unobtainium" = none ∧
    (0 < (⟨110000, 200⟩ : MaterialProps).E ∧ 0 < (⟨110000, 200⟩ : MaterialProps).yield) :=
  ⟨C5_material_lookup.2.2.2.2 "Unobtainium" (by decide) (by decide) (by decide),
    C5_material_lookup.2.2.2.1 "Copper" ⟨110000, 200⟩ (by simp [MATERIALS])⟩

/-- C6 counterexample: the claim "decreasing wall thickness strictly
increases outerFibreStressMPa (CLR fixed > ε)" is false on the code.
Decreasing the wall from 1mm to 0.5mm at CLR = 30 (E = 210000) takes the
stress from 3.5 down to 1.75: it is not greater. -/
theorem C6_counterexample :
    ¬ ((computeBody 10 0.5 90 500 3 ⟨210000, 250⟩).stress >
        (computeBody 10 1 90 500 3 ⟨210000, 250⟩).stress) := by
  rw [computeBody_stress, computeBody_stress,
    show max ((3 : ℝ) * 10) 1e-6 = 30 by rw [max_eq_left (by norm_num)]; norm_num]
  norm_num

/-- C6 (amended): holding the other inputs fixed, with od > 0, increasing the
wall thickness (above ε = 1e-6) strictly decreases the wall factor; and with
E > 0 and the center-line radius held fixed (> ε), increasing the wall
thickness strictly increases the outer-fibre stress — equivalently,
decreasing the wall strictly decreases the stress, not increases it. -/
theorem C6_monotonicity (od w1 w2 angle straight d : ℝ) (props : MaterialProps)
    (hod : 0 < od) (hE : 0 < props.E) (hclr : 1e-6 < d * od)
    (h1 : 1e-6 < w1) (h12 : w1 < w2) :
    (computeBody od w2 angle straight d props).wf <
      (computeBody od w1 angle straight d props).wf ∧
    (computeBody od w1 angle straight d props).stress <
      (computeBody od w2 angle straight d props).stress := by
  have heps : (0 : ℝ) < 1e-6 := by norm_num
  have hw1 : (0 : ℝ) < w1 := lt_trans heps h1
  constructor
  · rw [computeBody_wf, computeBody_wf, max_eq_left h1.le,
      max_eq_left (le_trans h1.le h12.le)]
    exact div_lt_div_of_pos_left hod hw1 h12
  · rw [computeBody_stress, computeBody_stress]
    have hM : (0 : ℝ) < max (d * od) 1e-6 := lt_of_lt_of_le heps (le_max_right _ _)
    have h0 : (w1 / 2) / max (d * od) 1e-6 < (w2 / 2) / max (d * od) 1e-6 := by
      apply div_lt_div_of_pos_right _ hM
      linarith
    have h1' : props.E * ((w1 / 2) / max (d * od) 1e-6) <
        props.E * ((w2 / 2) / max (d * od) 1e-6) :=
      mul_lt_mul_of_pos_left h0 hE
    exact div_lt_div_of_pos_right h1' (by norm_num)

/-- Witness for C6 (amended) at od = 10, walls 1 < 2, D = 3, Carbon Steel. -/
theorem C6_monotonicity_witness :
    (computeBody 10 2 90 500 3 ⟨210000, 250⟩).wf <
      (computeBody 10 1 90 500 3 ⟨210000, 250⟩).wf ∧
    (computeBody 10 1 90 500 3 ⟨210000, 250⟩).stress <
      (computeBody 10 2 90 500 3 ⟨210000, 250⟩).stress :=
  C6_monotonicity 10 1 2 90 500 3 ⟨210000, 250⟩ (by norm_num) (by norm_num)
    (by norm_num) (by norm_num) (by norm_num)

/-- C7: the report document is, in order, a title, an echo of every input
field (numerics to 2 decimals), a labelled block of every result field (to 2
decimals) and the static formula-reference block with the disclaimer; the
engine's exact outputs on the end-to-end example are wf = 10 and
fos = 250/3.5 = 500/7, and any results record carrying those values renders
the literal lines "Wall Factor (WF = OD / t)         : 10.00" and
"Factor of Safety vs Yield (FoS)   : 71.43". -/
theorem C7_report_content :
    (∀ (i : InputsQ) (r : ResultsQ),
      docLines i r =
        specTitleBlock ++ specInputEcho i ++ specResultsBlock r ++ specFormulaBlock) ∧
    (∃ r : BendResults, compute_bend_parameters 10 1 90 500 3 "Carbon Steel" = some r ∧
      r.wf = 10 ∧ r.fos = (((500 / 7 : ℝ)) : EReal)) ∧
    (∀ (i : InputsQ) (r : ResultsQ), r.wf = 10 → r.fos = some (500 / 7) →
      "Wall Factor (WF = OD / t)         : 10.00" ∈ docLines i r ∧
      "Factor of Safety vs Yield (FoS)   : 71.43" ∈ docLines i r) := by
  refine ⟨fun i r => rfl, ?_, ?_⟩
  · refine ⟨computeBody 10 1 90 500 3 ⟨210000, 250⟩, ?_, ?_, ?_⟩
    · simp [compute_bend_parameters, MATERIALS]
    · rw [computeBody_example]
    · rw [computeBody_example]
  · intro i r hwf hfos
    have h9 : "Wall Factor (WF = OD / t)         : " ++ fmt2 r.wf =
        "Wall Factor (WF = OD / t)         : 10.00" := by rw [hwf]; decide
    have h15 : "Factor of Safety vs Yield (FoS)   : " ++ fmtFos r.fos =
        "Factor of Safety vs Yield (FoS)   : 71.43" := by rw [hfos]; decide
    constructor
    · rw [← h9]
      simp [docLines]
    · rw [← h15]
      simp [docLines]

/-- Witness for C7 at the end-to-end example's rendered values. -/
theorem C7_report_content_witness :
    "Wall Factor (WF = OD / t)         : 10.00" ∈ docLines exampleInputsQ exampleResultsQ ∧
    "Factor of Safety vs Yield (FoS)   : 71.43" ∈ docLines exampleInputsQ exampleResultsQ :=
  C7_report_content.2.2 exampleInputsQ exampleResultsQ rfl rfl

/-- C8: report rendering is total — every character of the document is
encoded, a character whose code point fits Latin-1 as itself and every other
character as the replacement glyph `'?'` (63), so generation always completes
with bytes in range. -/
theorem C8_encoding_total (i : InputsQ) (r : ResultsQ) :
    (generate_pdf_report i r).length = (docString i r).data.length ∧
    (∀ k : ℕ, (generate_pdf_report i r)[k]? =
      ((docString i r).data[k]?).map (fun c => if c.toNat ≤ 255 then c.toNat else 63)) ∧
    (∀ b ∈ generate_pdf_report i r, b ≤ 255) := by
  refine ⟨by simp [generate_pdf_report, encodeLatin1Replace], ?_, ?_⟩
  · intro k
    simp [generate_pdf_report, encodeLatin1Replace]
  · intro b hb
    simp only [generate_pdf_report, encodeLatin1Replace, List.mem_map] at hb
    obtain ⟨c, _, hc⟩ := hb
    rcases le_or_lt c.toNat 255 with h | h
    · rw [if_pos h] at hc
      omega
    · rw [if_neg (not_le.mpr h)] at hc
      omega

/-- Witness for C8 at the example document; the first byte is `'T'` = 84. -/
theorem C8_encoding_total_witness :
    (generate_pdf_report exampleInputsQ exampleResultsQ).length =
      (docString exampleInputsQ exampleResultsQ).data.length ∧
    (84 : ℕ) ≤ 255 :=
  ⟨(C8_encoding_total exampleInputsQ exampleResultsQ).1,
    (C8_encoding_total exampleInputsQ exampleResultsQ).2.2 84 (by decide)⟩

/-- C9: the duplicate simplified calculation agrees with the Parameter Engine
on total length: for straight length s ≥ 0, `calculate_tube_length s a r`
equals s + radians(a)·r, which is exactly the engine's total length when r is
its center-line radius D·od. -/
theorem C9_duplicate_total_length (s a r od wall d : ℝ) (props : MaterialProps)
    (hs : 0 ≤ s) (hr : r = d * od) :
    calculate_tube_length s a r = s + radians a * r ∧
    calculate_tube_length s a r = (computeBody od wall a s d props).total_len := by
  refine ⟨rfl, ?_⟩
  rw [computeBody_total_len, hr]
  show s + radians a * (d * od) = s + d * od * radians a
  ring

/-- Witness for C9 at s = 500, a = 90, r = 30 = 3·10. -/
theorem C9_duplicate_total_length_witness :
    calculate_tube_length 500 90 30 = 500 + radians 90 * 30 ∧
    calculate_tube_length 500 90 30 =
      (computeBody 10 1 90 500 3 ⟨210000, 250⟩).total_len :=
  C9_duplicate_total_length 500 90 30 10 1 3 ⟨210000, 250⟩ (by norm_num) (by norm_num)

/-- C10: `calculate_bend_radius` is independent of its bend-angle argument
and always returns diameter · material factor. -/
theorem C10_angle_independent (d a1 a2 f : ℝ) :
    calculate_bend_radius d a1 f = calculate_bend_radius d a2 f ∧
    calculate_bend_radius d a1 f = d * f :=
  ⟨rfl, rfl⟩

end TubeCalc
